import Mathlib

/-!
Verification development for `verify_chat_performance.py`.

The script registers thirteen Playwright URL-glob route interceptors,
navigates to a local URL, interacts with a textarea and captures
screenshots, with two try/except failure branches.

Part 1 models Playwright's URL-glob matching (`*` matches a run of
non-`/` characters, `**` matches any characters, all other characters
match literally) and the script's route table.
Part 2 models the control flow of `run()` as a function of an
environment that records which external browser operations succeed.
-/

namespace VerifyChat

/-- `w` contains no `/` character. A `*` glob segment matches exactly
such character runs. -/
def noSlash (w : List Char) : Bool := w.all (fun c => c != '/')

/-- Tokens of a URL-glob pattern: a literal character, `*` (any run of
non-`/` characters) or `**` (any run of characters). -/
inductive GTok where
  | lit (c : Char)
  | one
  | many
deriving DecidableEq, Repr

/-- Tokenize a glob pattern: `**` becomes `many`, a single `*` becomes
`one`, every other character is literal. -/
def toks : List Char → List GTok
  | [] => []
  | '*' :: '*' :: p => .many :: toks p
  | '*' :: p => .one :: toks p
  | c :: p => .lit c :: toks p

/-- Matching of a tokenized glob pattern against a character list. -/
def tokMatch : List GTok → List Char → Bool
  | [], s => s.isEmpty
  | .many :: p, [] => tokMatch p []
  | .many :: p, c :: s => tokMatch p (c :: s) || tokMatch (.many :: p) s
  | .one :: p, [] => tokMatch p []
  | .one :: p, c :: s => tokMatch p (c :: s) || (decide (c ≠ '/') && tokMatch (.one :: p) s)
  | .lit _ :: _, [] => false
  | .lit c :: p, d :: s => (c == d) && tokMatch p s
termination_by p s => (s.length, p.length)

/-- Playwright URL-glob matching on character lists. -/
def globMatch (p s : List Char) : Bool := tokMatch (toks p) s

/-- Glob matching on strings. -/
def globMatchS (p s : String) : Bool := globMatch p.data s.data

/-- The token sequence of a star-free literal pattern. -/
def litToks (L : List Char) : List GTok := L.map GTok.lit

/-- Number of `/` characters in a list. -/
def slashCount (l : List Char) : Nat := l.count '/'

/-- `fits L v B` holds when `L` decomposes as `v ++ w ++ B` for some
slash-free `w`. -/
def fits (L v B : List Char) : Bool :=
  decide (v <+: L) && decide (B <:+ L) && decide (v.length + B.length ≤ L.length) &&
    noSlash ((L.drop v.length).take (L.length - v.length - B.length))

/-- No nonempty suffix of `A` yields a decomposition `L = v ++ w ++ B`
with slash-free `w`. -/
def noFit (L A B : List Char) : Bool :=
  A.tails.all fun v => v.isEmpty || !(fits L v B)

/-- The fixed prefix of the `**/api/wallet/*` pattern's match condition. -/
def walletPre : List Char := "/api/wallet/".data

/-- The fixed prefix of the `**/api/conversations/*/messages` pattern's
match condition. -/
def msgsPre : List Char := "/api/conversations/".data

/-- The fixed tail of the `**/api/conversations/*/messages` pattern's
match condition. -/
def msgsSuf : List Char := "/messages".data

/-- JSON values, for the canned fixture bodies. -/
inductive Json where
  | null
  | bool (b : Bool)
  | num (n : Int)
  | str (s : String)
  | arr (xs : List Json)
  | obj (kvs : List (String × Json))

/-- An intercepted HTTP request: URL plus the data the handlers could in
principle inspect (method, headers, post body) but never do. -/
structure Request where
  url : String
  method : String
  headers : List (String × String)
  postData : Option String

/-- The response produced by `route.fulfill`. -/
structure Fulfill where
  status : Nat
  json : Json

/-- `route.fulfill(json=body)`: Playwright's documented default status
for `fulfill` is 200. -/
def fulfillJson (j : Json) : Fulfill := { status := 200, json := j }

/-- The thirteen route registrations of `run()` (source lines 10-33), in
registration order: URL-glob pattern and handler. Every handler ignores
the request, exactly as each `lambda route: route.fulfill(json=...)`
does. -/
def routeHandlers : List (String × (Request → Fulfill)) :=
  [("**/api/onboarding/status", fun _ => fulfillJson (.obj [("complete", .bool true)])),
   ("**/api/onboarding/options", fun _ => fulfillJson (.obj [("options", .arr [])])),
   ("**/api/status", fun _ => fulfillJson (.obj [("state", .str "running"), ("agentName", .str "Milady")])),
   ("**/api/auth/status", fun _ => fulfillJson (.obj [("required", .bool false), ("pairingEnabled", .bool false), ("expiresAt", .null)])),
   ("**/api/workbench/overview", fun _ => fulfillJson (.obj [])),
   ("**/api/logs", fun _ => fulfillJson (.obj [("entries", .arr [])])),
   ("**/api/conversations", fun _ => fulfillJson (.obj [("conversations", .arr [.obj [("id", .str "c1"), ("title", .str "Chat 1")]])])),
   ("**/api/conversations/*/messages", fun _ => fulfillJson (.obj [("messages", .arr
      [.obj [("id", .str "m1"), ("role", .str "user"), ("text", .str "Hello"), ("timestamp", .num 1)],
       .obj [("id", .str "m2"), ("role", .str "assistant"), ("text", .str "Hi there!"), ("timestamp", .num 2)]])])),
   ("**/api/character", fun _ => fulfillJson (.obj [("character", .obj [("name", .str "Milady")])])),
   ("**/api/update/status", fun _ => fulfillJson (.obj [("channel", .str "dev"), ("currentVersion", .str "1.0.0"), ("latestVersion", .str "1.0.0"), ("updateAvailable", .bool false)])),
   ("**/api/wallet/*", fun _ => fulfillJson (.obj [])),
   ("**/api/plugins", fun _ => fulfillJson (.obj [("plugins", .arr [])])),
   ("**/api/skills", fun _ => fulfillJson (.obj [("skills", .arr [])]))]

/-- The thirteen registered URL-glob patterns, in registration order. -/
def routePatterns : List String := routeHandlers.map Prod.fst

/-- Dispatching a request against a route table: the handler of the
first entry whose pattern matches the URL answers. (For this table the
choice of order is immaterial; see the disjointness theorems.) -/
def dispatch (l : List (String × (Request → Fulfill))) (req : Request) : Option Fulfill :=
  (l.find? (fun pr => globMatchS pr.1 req.url)).map (fun pr => pr.2 req)

/-- The suffix normal form of a registered pattern: either a literal
suffix, or a fixed block, one `*` gap, and a fixed tail. -/
inductive RouteForm where
  | lit (L : List Char)
  | star (A B : List Char)

/-- What it means for a URL (as a character list) to satisfy a suffix
normal form. -/
def FormSat : RouteForm → List Char → Prop
  | .lit L, u => L <:+ u
  | .star A B, u => ∃ w, noSlash w = true ∧ (A ++ w ++ B) <:+ u

/-- Suffix normal forms of the thirteen patterns, in registration order. -/
def routeForms : List RouteForm :=
  [.lit "/api/onboarding/status".data,
   .lit "/api/onboarding/options".data,
   .lit "/api/status".data,
   .lit "/api/auth/status".data,
   .lit "/api/workbench/overview".data,
   .lit "/api/logs".data,
   .lit "/api/conversations".data,
   .star msgsPre msgsSuf,
   .lit "/api/character".data,
   .lit "/api/update/status".data,
   .star walletPre [],
   .lit "/api/plugins".data,
   .lit "/api/skills".data]

/-- Which of the fallible browser operations of `run()` succeed in a
given run, together with the exception texts used in the two prints.
`gotoOk`: `page.goto` (line 37); `waitOk`: `page.wait_for_selector`
(line 48); `fillOk`: `page.fill` (line 51); `shotFailedOk`,
`shotChatOk`, `shotErrorOk`: the three `page.screenshot` calls
(lines 41, 54, 59). -/
structure Env where
  gotoOk : Bool
  navErr : String
  waitOk : Bool
  fillOk : Bool
  interErr : String
  shotFailedOk : Bool
  shotChatOk : Bool
  shotErrorOk : Bool

/-- Observable events of a run: a line on standard output, a screenshot
attempt, a successful screenshot written to disk (with its `full_page`
flag), a successful fill of an element, and `browser.close()`. -/
inductive Ev where
  | print (s : String)
  | shotAttempt (path : String)
  | fileWrite (path : String) (fullPage : Bool)
  | fillText (selector text : String)
  | close
deriving DecidableEq, Repr

/-- The result of a run: its event trace, and whether an exception
propagated out of `run()`. -/
structure Outcome where
  trace : List Ev
  raised : Bool
deriving DecidableEq, Repr

/-- The `except` branch of the interaction phase (source lines 57-59):
print the error, attempt a diagnostic screenshot — unguarded, so a
failure there propagates — and otherwise fall through to
`browser.close()` (line 61). Playwright screenshots default to
`full_page=False`. -/
def interactionFailure (env : Env) (t : List Ev) : Outcome :=
  let t1 := t ++ [Ev.print ("Interaction failed: " ++ env.interErr),
                  Ev.shotAttempt "verification_error.png"]
  if env.shotErrorOk then
    ⟨t1 ++ [Ev.fileWrite "verification_error.png" false, Ev.close], false⟩
  else
    ⟨t1, true⟩

/-- The body of `run()` from the first print on (source lines 35-61),
as a function of which browser operations succeed. The route
registrations of lines 10-33 precede this and are modelled by
`routeHandlers`. Neither `page.screenshot` call passes `full_page`, so
both use Playwright's default `full_page=False`. -/
def run (env : Env) : Outcome :=
  let t0 := [Ev.print "Navigating to app..."]
  if env.gotoOk then
    let t1 := t0 ++ [Ev.print "Waiting for chat input..."]
    if env.waitOk then
      if env.fillOk then
        let t2 := t1 ++ [Ev.fillText "textarea" "Testing performance optimization",
                         Ev.shotAttempt "verification_chat.png"]
        if env.shotChatOk then
          ⟨t2 ++ [Ev.fileWrite "verification_chat.png" false,
                  Ev.print "Screenshot saved to verification_chat.png", Ev.close], false⟩
        else
          interactionFailure env t2
      else
        interactionFailure env t1
    else
      interactionFailure env t1
  else
    let t1 := t0 ++ [Ev.print ("Navigation failed: " ++ env.navErr),
                     Ev.shotAttempt "verification_failed.png"]
    if env.shotFailedOk then
      ⟨t1 ++ [Ev.fileWrite "verification_failed.png" false, Ev.close], false⟩
    else
      ⟨t1, true⟩

/-- Recognizes the `browser.close()` event. -/
def isClose : Ev → Bool
  | Ev.close => true
  | _ => false

/-- How many times `browser.close()` executed in a run. -/
def closeCount (o : Outcome) : Nat := o.trace.countP isClose

/-- The files written during a run, in order. -/
def writes (o : Outcome) : List String :=
  o.trace.filterMap fun e =>
    match e with
    | Ev.fileWrite p _ => some p
    | _ => none

/-- A run in which every browser operation succeeds. -/
def envAllOk : Env :=
  ⟨true, "", true, true, "", true, true, true⟩

/-- A run in which navigation fails and everything else succeeds. -/
def envNavFail : Env :=
  ⟨false, "Timeout 60000ms exceeded.", true, true, "", true, true, true⟩

/-- A run in which navigation fails and the diagnostic screenshot to
`verification_failed.png` also fails. -/
def envNavShotFail : Env :=
  ⟨false, "Timeout 60000ms exceeded.", true, true, "", false, true, true⟩

/-- A run in which no textarea appears within the timeout and everything
else succeeds. -/
def envWaitFail : Env :=
  ⟨true, "", false, true, "Timeout 30000ms exceeded.", true, true, true⟩

/-- A run in which no textarea appears and the diagnostic screenshot to
`verification_error.png` also fails. -/
def envWaitShotFail : Env :=
  ⟨true, "", false, true, "Timeout 30000ms exceeded.", true, true, false⟩

/-- A run in which the textarea appears but filling it fails. -/
def envFillFail : Env :=
  ⟨true, "", true, false, "Element is not attached to the DOM", true, true, true⟩

/-- A request to the mocked messages endpoint. -/
def reqMsgs : Request :=
  ⟨"http://localhost:5173/api/conversations/c1/messages", "GET", [], none⟩

/-- The two-message body returned for the messages endpoint. -/
def msgsBody : Json :=
  .obj [("messages", .arr
    [.obj [("id", .str "m1"), ("role", .str "user"), ("text", .str "Hello"), ("timestamp", .num 1)],
     .obj [("id", .str "m2"), ("role", .str "assistant"), ("text", .str "Hi there!"), ("timestamp", .num 2)]])]

/-- A literal token sequence matches exactly its own character list. -/
theorem tokMatch_litToks (L : List Char) : ∀ s, tokMatch (litToks L) s = true ↔ s = L := by
  induction L with
  | nil =>
    intro s
    cases s <;> simp [litToks, tokMatch]
  | cons c L ih =>
    intro s
    cases s with
    | nil => simp [litToks, tokMatch]
    | cons d s' =>
      simp only [litToks, List.map, tokMatch, Bool.and_eq_true, beq_iff_eq, List.cons.injEq]
      rw [show (List.map GTok.lit L) = litToks L from rfl, ih s']
      constructor
      · rintro ⟨h1, h2⟩; exact ⟨h1.symm, h2⟩
      · rintro ⟨h1, h2⟩; exact ⟨h1.symm, h2⟩

/-- Peeling a literal token block off the front of a pattern. -/
theorem tokMatch_litToks_append (L : List Char) (p : List GTok) :
    ∀ s, tokMatch (litToks L ++ p) s = true ↔ ∃ t, s = L ++ t ∧ tokMatch p t = true := by
  induction L with
  | nil =>
    intro s
    simp [litToks]
  | cons c L ih =>
    intro s
    cases s with
    | nil =>
      simp only [litToks, List.map, List.cons_append, tokMatch]
      constructor
      · intro h; exact absurd h (by simp)
      · rintro ⟨t, h, _⟩; exact absurd h (by simp)
    | cons d s' =>
      simp only [litToks, List.map, List.cons_append, tokMatch, Bool.and_eq_true, beq_iff_eq]
      rw [show (List.map GTok.lit L ++ p) = litToks L ++ p from rfl, ih s']
      constructor
      · rintro ⟨h1, t, h2, h3⟩
        exact ⟨t, by rw [h1, h2], h3⟩
      · rintro ⟨t, h1, h2⟩
        obtain ⟨hd, htl⟩ := List.cons.injEq .. ▸ h1
        exact ⟨hd.symm, t, htl, h2⟩

/-- `**` at the front of a pattern consumes an arbitrary run. -/
theorem tokMatch_many (p : List GTok) :
    ∀ s, tokMatch (GTok.many :: p) s = true ↔ ∃ a b, s = a ++ b ∧ tokMatch p b = true := by
  intro s
  induction s with
  | nil =>
    simp only [tokMatch]
    constructor
    · intro h; exact ⟨[], [], rfl, h⟩
    · rintro ⟨a, b, hab, hb⟩
      obtain ⟨rfl, rfl⟩ := List.append_eq_nil.mp hab.symm
      exact hb
  | cons c s ih =>
    simp only [tokMatch, Bool.or_eq_true]
    constructor
    · rintro (h | h)
      · exact ⟨[], c :: s, rfl, h⟩
      · obtain ⟨a, b, hab, hb⟩ := ih.mp h
        exact ⟨c :: a, b, by rw [hab]; rfl, hb⟩
    · rintro ⟨a, b, hab, hb⟩
      cases a with
      | nil => left; rw [List.nil_append] at hab; rw [← hab] at hb; exact hb
      | cons a0 a' =>
        right
        rw [List.cons_append] at hab
        obtain ⟨_, htl⟩ := List.cons.injEq .. ▸ hab
        exact ih.mpr ⟨a', b, htl, hb⟩

/-- `*` at the front of a pattern consumes an arbitrary slash-free run. -/
theorem tokMatch_one (p : List GTok) :
    ∀ s, tokMatch (GTok.one :: p) s = true ↔
      ∃ a b, s = a ++ b ∧ noSlash a = true ∧ tokMatch p b = true := by
  intro s
  induction s with
  | nil =>
    simp only [tokMatch]
    constructor
    · intro h; exact ⟨[], [], rfl, rfl, h⟩
    · rintro ⟨a, b, hab, _, hb⟩
      obtain ⟨rfl, rfl⟩ := List.append_eq_nil.mp hab.symm
      exact hb
  | cons c s ih =>
    simp only [tokMatch, Bool.or_eq_true, Bool.and_eq_true, decide_eq_true_eq]
    constructor
    · rintro (h | ⟨hc, h⟩)
      · exact ⟨[], c :: s, rfl, rfl, h⟩
      · obtain ⟨a, b, hab, ha, hb⟩ := ih.mp h
        refine ⟨c :: a, b, by rw [hab]; rfl, ?_, hb⟩
        simp [noSlash] at ha ⊢
        exact ⟨hc, ha⟩
    · rintro ⟨a, b, hab, ha, hb⟩
      cases a with
      | nil => left; rw [List.nil_append] at hab; rw [← hab] at hb; exact hb
      | cons a0 a' =>
        right
        rw [List.cons_append] at hab
        obtain ⟨hhd, htl⟩ := List.cons.injEq .. ▸ hab
        simp [noSlash] at ha
        refine ⟨hhd ▸ ha.1, ih.mpr ⟨a', b, htl, ?_, hb⟩⟩
        simp [noSlash]
        exact ha.2

/-- A trailing single `*` matches exactly the slash-free lists. -/
theorem tokMatch_one_nil : ∀ s, tokMatch [GTok.one] s = true ↔ noSlash s = true := by
  intro s
  rw [tokMatch_one]
  constructor
  · rintro ⟨a, b, rfl, ha, hb⟩
    cases b with
    | nil => rw [List.append_nil]; exact ha
    | cons b0 b' => exact absurd hb (by simp [tokMatch])
  · intro h
    exact ⟨s, [], by rw [List.append_nil], h, by simp [tokMatch]⟩

/-- Characterization of `**` followed by a literal tail: suffix matching. -/
theorem manyLit_iff (L : List Char) (u : List Char) :
    tokMatch (GTok.many :: litToks L) u = true ↔ L <:+ u := by
  rw [tokMatch_many]
  constructor
  · rintro ⟨a, b, rfl, hb⟩
    rw [tokMatch_litToks] at hb
    exact ⟨a, by rw [hb]⟩
  · rintro ⟨t, rfl⟩
    exact ⟨t, L, rfl, (tokMatch_litToks L L).mpr rfl⟩

/-- Characterization of `**`, literal block, trailing `*`. -/
theorem manyLitOne_iff (L : List Char) (u : List Char) :
    tokMatch (GTok.many :: (litToks L ++ [GTok.one])) u = true ↔
      ∃ w, noSlash w = true ∧ (L ++ w) <:+ u := by
  rw [tokMatch_many]
  constructor
  · rintro ⟨a, b, rfl, hb⟩
    rw [tokMatch_litToks_append] at hb
    obtain ⟨t, rfl, ht⟩ := hb
    rw [tokMatch_one_nil] at ht
    exact ⟨t, ht, ⟨a, rfl⟩⟩
  · rintro ⟨w, hw, t, rfl⟩
    refine ⟨t, L ++ w, rfl, ?_⟩
    rw [tokMatch_litToks_append]
    exact ⟨w, rfl, (tokMatch_one_nil w).mpr hw⟩

/-- Characterization of `**`, literal block, `*`, literal block. -/
theorem manyLitOneLit_iff (L Q : List Char) (u : List Char) :
    tokMatch (GTok.many :: (litToks L ++ GTok.one :: litToks Q)) u = true ↔
      ∃ c, noSlash c = true ∧ (L ++ c ++ Q) <:+ u := by
  rw [tokMatch_many]
  constructor
  · rintro ⟨a, b, rfl, hb⟩
    rw [tokMatch_litToks_append] at hb
    obtain ⟨t, rfl, ht⟩ := hb
    rw [tokMatch_one] at ht
    obtain ⟨c, d, rfl, hc, hd⟩ := ht
    rw [tokMatch_litToks] at hd
    subst hd
    exact ⟨c, hc, ⟨a, by simp [List.append_assoc]⟩⟩
  · rintro ⟨c, hc, t, ht⟩
    refine ⟨t, L ++ c ++ Q, ht.symm, ?_⟩
    rw [tokMatch_litToks_append]
    refine ⟨c ++ Q, by simp [List.append_assoc], ?_⟩
    rw [tokMatch_one]
    exact ⟨c, Q, rfl, hc, (tokMatch_litToks Q Q).mpr rfl⟩

theorem noSlash_iff_count (l : List Char) : noSlash l = true ↔ slashCount l = 0 := by
  simp only [noSlash, slashCount, List.count_eq_zero, List.all_eq_true, ne_eq, bne_iff_ne]
  exact ⟨fun h hm => h '/' hm rfl, fun h x hx he => h (he ▸ hx)⟩

theorem count_le_of_suffix {u v : List Char} (h : u <:+ v) : slashCount u ≤ slashCount v :=
  h.sublist.count_le '/'

theorem slashCount_append (a b : List Char) :
    slashCount (a ++ b) = slashCount a + slashCount b :=
  List.count_append ..

/-- Decomposing a suffix of an append: either it lies inside the right
part, or it is a nonempty suffix of the left part glued to all of the
right part. -/
theorem suffix_append_cases {u x y : List Char} (h : u <:+ x ++ y) :
    u <:+ y ∨ ∃ v, v <:+ x ∧ v ≠ [] ∧ u = v ++ y := by
  obtain ⟨t, ht⟩ := h
  rcases List.append_eq_append_iff.mp ht with ⟨v, h1, h2⟩ | ⟨x', _, h2⟩
  · rcases eq_or_ne v [] with rfl | hv
    · left; rw [h2]; exact List.nil_append y ▸ List.suffix_refl y
    · right; exact ⟨v, ⟨t, h1.symm⟩, hv, h2⟩
  · left; exact ⟨x', h2.symm⟩

theorem fits_of_eq {L v B w : List Char} (h : L = v ++ w ++ B) (hw : noSlash w = true) :
    fits L v B = true := by
  subst h
  have hmid : (v ++ w ++ B).length - v.length - B.length = w.length := by
    simp [List.length_append]
  simp only [fits, Bool.and_eq_true, decide_eq_true_eq]
  refine ⟨⟨⟨⟨w ++ B, by rw [List.append_assoc]⟩, List.suffix_append ..⟩, ?_⟩, ?_⟩
  · simp [List.length_append]
  · rw [hmid, List.append_assoc, List.drop_left, List.take_left]
    exact hw

theorem lit_lit_disj {L₁ L₂ u : List Char} (h12 : ¬ L₁ <:+ L₂) (h21 : ¬ L₂ <:+ L₁)
    (h1 : L₁ <:+ u) (h2 : L₂ <:+ u) : False :=
  (List.suffix_or_suffix_of_suffix h1 h2).elim h12 h21

/-- A literal suffix pattern and a starred pattern `A ++ * ++ B` cannot
both match, given the decidable side conditions. -/
theorem lit_star_disj {L A B u : List Char}
    (hL2 : 2 ≤ slashCount L)
    (hB1 : slashCount B ≤ 1)
    (hinf : ¬ A <:+: L)
    (hfit : noFit L A B = true)
    (hLu : L <:+ u) (hSu : ∃ w, noSlash w = true ∧ (A ++ w ++ B) <:+ u) : False := by
  obtain ⟨w, hw, hSu⟩ := hSu
  rcases List.suffix_or_suffix_of_suffix hLu hSu with h | h
  · rcases suffix_append_cases h with h1 | ⟨v, hvx, hvne, hLe⟩
    · have := count_le_of_suffix h1
      omega
    · rcases suffix_append_cases hvx with h2 | ⟨v', hv'A, hv'ne, hve⟩
      · have hv0 : slashCount v = 0 :=
          Nat.le_zero.mp ((count_le_of_suffix h2).trans
            (Nat.le_of_eq ((noSlash_iff_count w).mp hw)))
        rw [hLe, slashCount_append] at hL2
        omega
      · have hfits : fits L v' B = true :=
          fits_of_eq (by rw [hLe, hve, List.append_assoc]) hw
        have hmem : v' ∈ A.tails := (List.mem_tails ..).mpr hv'A
        have := List.all_eq_true.mp hfit v' hmem
        rcases Bool.or_eq_true .. ▸ this with he | hne
        · exact hv'ne (List.isEmpty_iff.mp he)
        · rw [hfits] at hne; simp at hne
  · have hA : A <:+: A ++ w ++ B := by
      rw [List.append_assoc]
      exact (List.prefix_append A (w ++ B)).isInfix
    exact hinf (hA.trans h.isInfix)

/-- The wallet pattern and the messages pattern never match the same URL. -/
theorem wallet_msgs_disj {u : List Char}
    (h1 : ∃ w, noSlash w = true ∧ (walletPre ++ w) <:+ u)
    (h2 : ∃ c, noSlash c = true ∧ (msgsPre ++ c ++ msgsSuf) <:+ u) : False := by
  obtain ⟨w, hw, hwu⟩ := h1
  obtain ⟨c, hc, hcu⟩ := h2
  have hwc : slashCount w = 0 := (noSlash_iff_count w).mp hw
  have hcc : slashCount c = 0 := (noSlash_iff_count c).mp hc
  have hWc : slashCount walletPre = 3 := by decide
  have hPc : slashCount msgsPre = 3 := by decide
  have hQc : slashCount msgsSuf = 1 := by decide
  rcases List.suffix_or_suffix_of_suffix hwu hcu with h | h
  · rcases suffix_append_cases h with h1 | ⟨v, hvx, hvne, hve⟩
    · -- walletPre ++ w inside "/messages": slash counts 3 ≤ 1
      have := count_le_of_suffix h1
      rw [slashCount_append, hWc, hwc, hQc] at this
      omega
    · rcases suffix_append_cases hvx with h2 | ⟨v', hv'P, _, hve'⟩
      · -- v is slash-free, but v ++ "/messages" = walletPre ++ w has 3 slashes
        have hv0 : slashCount v = 0 :=
          Nat.le_zero.mp ((count_le_of_suffix h2).trans (Nat.le_of_eq hcc))
        have := congrArg slashCount hve
        rw [slashCount_append, slashCount_append, hWc, hwc, hv0, hQc] at this
        omega
      · -- v = v' ++ c with v' a nonempty suffix of msgsPre
        rw [hve'] at hve
        rw [List.append_assoc] at hve
        rcases List.append_eq_append_iff.mp hve with ⟨a, _, ha2⟩ | ⟨b, hb1, hb2⟩
        · -- w = a ++ (c ++ "/messages") contradicts w slash-free
          have := congrArg slashCount ha2
          rw [slashCount_append, slashCount_append, hwc, hcc, hQc] at this
          omega
        · -- walletPre = v' ++ b: v' is a suffix of msgsPre and prefix of walletPre
          have hv'pre : v' <+: walletPre := ⟨b, hb1.symm⟩
          have hv'ne : v' ≠ [] := by
            rintro rfl
            rw [List.nil_append] at hb1
            have := congrArg slashCount hb2
            rw [← hb1, slashCount_append, slashCount_append, hWc, hcc, hQc, hwc] at this
            omega
          have hslash : v' = ['/'] := by
            have key : ∀ v ∈ msgsPre.tails, v ≠ [] → v <+: walletPre → v = ['/'] := by decide
            exact key v' ((List.mem_tails ..).mpr hv'P) hv'ne hv'pre
          have hbval : b = "api/wallet/".data := by
            rw [hslash] at hb1
            have hWcons : walletPre = '/' :: "api/wallet/".data := by decide
            rw [hWcons] at hb1
            simp only [List.singleton_append, List.cons.injEq, true_and] at hb1
            exact hb1.symm
          -- now c ++ "/messages" = b ++ w with b = "api/wallet/"
          rw [hbval] at hb2
          rcases List.append_eq_append_iff.mp hb2 with ⟨a2, ha1, ha2⟩ | ⟨d, hd1, _⟩
          · -- b = c ++ a2, msgsSuf = a2 ++ w: scan the split point of b
            have hkey : ∀ k ∈ List.range ("api/wallet/".data.length + 1),
                ¬(noSlash ("api/wallet/".data.take k) = true ∧
                  "api/wallet/".data.drop k <+: msgsSuf) := by decide
            have hlen : c.length ≤ "api/wallet/".data.length := by
              have := congrArg List.length ha1
              rw [List.length_append] at this
              omega
            refine hkey c.length (List.mem_range.mpr (by omega)) ⟨?_, ?_⟩
            · rw [ha1, List.take_left]
              exact hc
            · rw [ha1, List.drop_left]
              exact ⟨w, ha2.symm⟩
          · -- c = b ++ d contradicts c slash-free
            have hcnt := congrArg slashCount hd1
            rw [slashCount_append, hcc] at hcnt
            have hbc : slashCount "api/wallet/".data = 2 := by decide
            omega
  · -- msgs suffix inside wallet suffix: slash counts 4 ≤ 3
    have := count_le_of_suffix h
    rw [slashCount_append, slashCount_append, slashCount_append, hWc, hwc, hPc, hcc, hQc] at this
    omega

theorem litPattern_iff {pat : String} {L : List Char}
    (h : toks pat.data = GTok.many :: litToks L) (u : String) :
    globMatchS pat u = true ↔ L <:+ u.data := by
  rw [globMatchS, globMatch, h]
  exact manyLit_iff ..

theorem match0_iff (u : String) :
    globMatchS "**/api/onboarding/status" u = true ↔ "/api/onboarding/status".data <:+ u.data :=
  litPattern_iff (by simp [toks, litToks]) u

theorem match1_iff (u : String) :
    globMatchS "**/api/onboarding/options" u = true ↔ "/api/onboarding/options".data <:+ u.data :=
  litPattern_iff (by simp [toks, litToks]) u

theorem match2_iff (u : String) :
    globMatchS "**/api/status" u = true ↔ "/api/status".data <:+ u.data :=
  litPattern_iff (by simp [toks, litToks]) u

theorem match3_iff (u : String) :
    globMatchS "**/api/auth/status" u = true ↔ "/api/auth/status".data <:+ u.data :=
  litPattern_iff (by simp [toks, litToks]) u

theorem match4_iff (u : String) :
    globMatchS "**/api/workbench/overview" u = true ↔ "/api/workbench/overview".data <:+ u.data :=
  litPattern_iff (by simp [toks, litToks]) u

theorem match5_iff (u : String) :
    globMatchS "**/api/logs" u = true ↔ "/api/logs".data <:+ u.data :=
  litPattern_iff (by simp [toks, litToks]) u

theorem match6_iff (u : String) :
    globMatchS "**/api/conversations" u = true ↔ "/api/conversations".data <:+ u.data :=
  litPattern_iff (by simp [toks, litToks]) u

theorem match8_iff (u : String) :
    globMatchS "**/api/character" u = true ↔ "/api/character".data <:+ u.data :=
  litPattern_iff (by simp [toks, litToks]) u

theorem match9_iff (u : String) :
    globMatchS "**/api/update/status" u = true ↔ "/api/update/status".data <:+ u.data :=
  litPattern_iff (by simp [toks, litToks]) u

theorem match11_iff (u : String) :
    globMatchS "**/api/plugins" u = true ↔ "/api/plugins".data <:+ u.data :=
  litPattern_iff (by simp [toks, litToks]) u

theorem match12_iff (u : String) :
    globMatchS "**/api/skills" u = true ↔ "/api/skills".data <:+ u.data :=
  litPattern_iff (by simp [toks, litToks]) u

/-- The wallet pattern matches exactly the URLs that end in
`/api/wallet/` followed by a slash-free run. -/
theorem match10_iff (u : String) :
    globMatchS "**/api/wallet/*" u = true ↔
      ∃ w, noSlash w = true ∧ (walletPre ++ w ++ []) <:+ u.data := by
  have h : toks ("**/api/wallet/*" : String).data = GTok.many :: (litToks walletPre ++ [GTok.one]) := by
    simp [toks, litToks, walletPre]
  rw [globMatchS, globMatch, h, manyLitOne_iff]
  simp only [List.append_nil]

/-- The messages pattern matches exactly the URLs that end in
`/api/conversations/`, a slash-free run, then `/messages`. -/
theorem match7_iff (u : String) :
    globMatchS "**/api/conversations/*/messages" u = true ↔
      ∃ c, noSlash c = true ∧ (msgsPre ++ c ++ msgsSuf) <:+ u.data := by
  have h : toks ("**/api/conversations/*/messages" : String).data =
      GTok.many :: (litToks msgsPre ++ GTok.one :: litToks msgsSuf) := by
    simp [toks, litToks, msgsPre, msgsSuf]
  rw [globMatchS, globMatch, h, manyLitOneLit_iff]

/-- Matching a registered pattern is equivalent to satisfying its suffix
normal form. -/
theorem match_iff_form (i : Fin 13) (u : String) :
    globMatchS (routePatterns.get i) u = true ↔ FormSat (routeForms.get i) u.data := by
  fin_cases i
  · exact match0_iff u
  · exact match1_iff u
  · exact match2_iff u
  · exact match3_iff u
  · exact match4_iff u
  · exact match5_iff u
  · exact match6_iff u
  · exact match7_iff u
  · exact match8_iff u
  · exact match9_iff u
  · exact match10_iff u
  · exact match11_iff u
  · exact match12_iff u

theorem wallet_msgs_disj_nil {u : List Char}
    (h1 : ∃ w, noSlash w = true ∧ (walletPre ++ w ++ []) <:+ u)
    (h2 : ∃ c, noSlash c = true ∧ (msgsPre ++ c ++ msgsSuf) <:+ u) : False := by
  obtain ⟨w, hw, hs⟩ := h1
  rw [List.append_nil] at hs
  exact wallet_msgs_disj ⟨w, hw, hs⟩ h2

/-- No two distinct registered patterns can match the same URL. -/
theorem forms_disjoint (u : List Char) : ∀ (i j : Fin 13), i ≠ j →
    FormSat (routeForms.get i) u → FormSat (routeForms.get j) u → False := by
  intro i j hij hi hj
  fin_cases i <;> fin_cases j <;>
    first
    | exact absurd rfl hij
    | exact lit_lit_disj (by decide) (by decide) hi hj
    | exact lit_star_disj (by decide) (by decide) (by decide) (by decide) hi hj
    | exact lit_star_disj (by decide) (by decide) (by decide) (by decide) hj hi
    | exact wallet_msgs_disj_nil hi hj
    | exact wallet_msgs_disj_nil hj hi

theorem filter_length_le_one {α : Type} (p : α → Bool) :
    ∀ l : List α, l.Pairwise (fun x y => ¬(p x = true ∧ p y = true)) →
      (l.filter p).length ≤ 1 := by
  intro l
  induction l with
  | nil => simp
  | cons a l ih =>
    intro h
    rw [List.pairwise_cons] at h
    obtain ⟨ha, hl⟩ := h
    by_cases hpa : p a = true
    · rw [List.filter_cons_of_pos hpa]
      have hnil : l.filter p = [] := by
        rw [List.filter_eq_nil_iff]
        intro x hx hpx
        exact ha x hx ⟨hpa, hpx⟩
      rw [hnil]
      simp
    · rw [List.filter_cons_of_neg (by simpa using hpa)]
      exact ih hl

/-- Pairwise non-overlap of the registered patterns, at every URL. -/
theorem routePatterns_pairwise_disjoint (u : String) :
    routePatterns.Pairwise (fun p₁ p₂ => ¬(globMatchS p₁ u = true ∧ globMatchS p₂ u = true)) := by
  rw [List.pairwise_iff_get]
  intro i j hij
  rintro ⟨h1, h2⟩
  exact forms_disjoint u.data i j (Fin.ne_of_lt hij)
    ((match_iff_form i u).mp h1) ((match_iff_form j u).mp h2)

theorem routeHandlers_pairwise_disjoint (u : String) :
    routeHandlers.Pairwise
      (fun e₁ e₂ => ¬(globMatchS e₁.1 u = true ∧ globMatchS e₂.1 u = true)) := by
  have h := routePatterns_pairwise_disjoint u
  rw [routePatterns] at h
  exact List.pairwise_map.mp h

theorem routeHandlers_unique_match (req : Request) :
    ∀ x ∈ routeHandlers, ∀ y ∈ routeHandlers,
      globMatchS x.1 req.url = true → globMatchS y.1 req.url = true → x = y := by
  intro x hx y hy hpx hpy
  by_contra hne
  have hsym : Symmetric (fun e₁ e₂ : String × (Request → Fulfill) =>
      ¬(globMatchS e₁.1 req.url = true ∧ globMatchS e₂.1 req.url = true)) := by
    intro a b hab ⟨h1, h2⟩
    exact hab ⟨h2, h1⟩
  exact (routeHandlers_pairwise_disjoint req.url).forall hsym hx hy hne ⟨hpx, hpy⟩

theorem find?_eq_of_perm {α : Type} {l l' : List α} (hp : l.Perm l') (p : α → Bool)
    (huniq : ∀ x ∈ l, ∀ y ∈ l, p x = true → p y = true → x = y) :
    l.find? p = l'.find? p := by
  cases h : l.find? p with
  | none =>
    rw [List.find?_eq_none] at h
    symm
    rw [List.find?_eq_none]
    intro x hx
    exact h x (hp.mem_iff.mpr hx)
  | some a =>
    have hpa : p a = true := List.find?_some h
    have hma : a ∈ l := List.mem_of_find?_eq_some h
    cases h' : l'.find? p with
    | none =>
      rw [List.find?_eq_none] at h'
      exact absurd hpa (h' a (hp.mem_iff.mp hma))
    | some b =>
      have hpb : p b = true := List.find?_some h'
      have hmb : b ∈ l := hp.mem_iff.mpr (List.mem_of_find?_eq_some h')
      rw [huniq a hma b hmb hpa hpb]

/-- Dispatch does not depend on the registration order of the routes. -/
theorem dispatch_perm_invariant (l' : List (String × (Request → Fulfill)))
    (hp : routeHandlers.Perm l') (req : Request) :
    dispatch l' req = dispatch routeHandlers req := by
  rw [dispatch, dispatch,
    find?_eq_of_perm hp (fun pr => globMatchS pr.1 req.url) (routeHandlers_unique_match req)]

/-- When an exception escapes `run()` — exactly when a diagnostic
screenshot attempt fails — `browser.close()` never executes; otherwise
it executes exactly once. -/
theorem run_close_raised (env : Env) :
    closeCount (run env) = (if (run env).raised = true then 0 else 1) ∧
    ((run env).raised = true ↔
      (env.gotoOk = false ∧ env.shotFailedOk = false) ∨
      (env.gotoOk = true ∧ (env.waitOk = false ∨ env.fillOk = false ∨ env.shotChatOk = false) ∧
        env.shotErrorOk = false)) := by
  obtain ⟨g, ne, w, f, ie, sf, sc, se⟩ := env
  cases g <;> cases w <;> cases f <;> cases sf <;> cases sc <;> cases se <;>
    simp [run, interactionFailure, closeCount, isClose]

/-- Any request whose URL matches the messages pattern is answered by the
messages handler, with status 200 and the two-message body. -/
theorem dispatch_msgs (req : Request)
    (h : globMatchS "**/api/conversations/*/messages" req.url = true) :
    dispatch routeHandlers req = some (fulfillJson msgsBody) := by
  have h7 : FormSat (routeForms.get (⟨7, by omega⟩ : Fin 13)) req.url.data :=
    (match_iff_form ⟨7, by omega⟩ req.url).mp h
  have hn : ∀ i : Fin 13, i ≠ (⟨7, by omega⟩ : Fin 13) →
      ¬(globMatchS (routePatterns.get i) req.url = true) :=
    fun i hi hm => forms_disjoint req.url.data i ⟨7, by omega⟩ hi
      ((match_iff_form i req.url).mp hm) h7
  have h0 : globMatchS "**/api/onboarding/status" req.url = false :=
    Bool.eq_false_iff.mpr (hn ⟨0, by omega⟩ (by decide))
  have h1 : globMatchS "**/api/onboarding/options" req.url = false :=
    Bool.eq_false_iff.mpr (hn ⟨1, by omega⟩ (by decide))
  have h2 : globMatchS "**/api/status" req.url = false :=
    Bool.eq_false_iff.mpr (hn ⟨2, by omega⟩ (by decide))
  have h3 : globMatchS "**/api/auth/status" req.url = false :=
    Bool.eq_false_iff.mpr (hn ⟨3, by omega⟩ (by decide))
  have h4 : globMatchS "**/api/workbench/overview" req.url = false :=
    Bool.eq_false_iff.mpr (hn ⟨4, by omega⟩ (by decide))
  have h5 : globMatchS "**/api/logs" req.url = false :=
    Bool.eq_false_iff.mpr (hn ⟨5, by omega⟩ (by decide))
  have h6 : globMatchS "**/api/conversations" req.url = false :=
    Bool.eq_false_iff.mpr (hn ⟨6, by omega⟩ (by decide))
  rw [dispatch]
  simp only [routeHandlers, List.find?, h0, h1, h2, h3, h4, h5, h6, h]
  rfl

/-- C1 (amended): in every terminal outcome in which no diagnostic
screenshot attempt itself fails (success, navigation failure,
interaction failure), `browser.close()` executes exactly once before
`run()` finishes; when a diagnostic screenshot attempt itself raises —
exactly the runs characterized by the right-hand side of the second
conjunct — the exception propagates out of `run()` and `browser.close()`
never executes. -/
theorem spec_C1 (env : Env) :
    closeCount (run env) = (if (run env).raised = true then 0 else 1) ∧
    ((run env).raised = true ↔
      (env.gotoOk = false ∧ env.shotFailedOk = false) ∨
      (env.gotoOk = true ∧ (env.waitOk = false ∨ env.fillOk = false ∨ env.shotChatOk = false) ∧
        env.shotErrorOk = false)) :=
  run_close_raised env

/-- C1 counterexample: in the run where navigation fails and the
diagnostic screenshot itself raises, `browser.close()` executes zero
times, not exactly once, and the exception escapes `run()`. -/
theorem spec_C1_counterexample :
    (run envNavShotFail).raised = true ∧ closeCount (run envNavShotFail) ≠ 1 := by
  constructor <;> simp [run, envNavShotFail, interactionFailure, closeCount, isClose]

/-- C2 (amended): when a diagnostic screenshot attempt itself fails, the
failure is not swallowed: the exception propagates out of `run()` and
browser teardown is skipped. -/
theorem spec_C2 (env : Env)
    (h : (env.gotoOk = false ∧ env.shotFailedOk = false) ∨
         (env.gotoOk = true ∧ (env.waitOk = false ∨ env.fillOk = false ∨ env.shotChatOk = false) ∧
           env.shotErrorOk = false)) :
    (run env).raised = true ∧ Ev.close ∉ (run env).trace := by
  obtain ⟨g, ne, w, f, ie, sf, sc, se⟩ := env
  cases g <;> cases w <;> cases f <;> cases sf <;> cases sc <;> cases se <;>
    simp_all [run, interactionFailure]

/-- C2 witness at a concrete run. -/
theorem spec_C2_witness :
    (run envNavShotFail).raised = true ∧ Ev.close ∉ (run envNavShotFail).trace :=
  spec_C2 envNavShotFail (Or.inl ⟨rfl, rfl⟩)

/-- C2 counterexample: in the run where the textarea never appears and
the diagnostic screenshot to `verification_error.png` itself fails, the
failure is not swallowed (the exception escapes `run()`) and execution
never reaches browser teardown. -/
theorem spec_C2_counterexample :
    (run envWaitShotFail).raised = true ∧ Ev.close ∉ (run envWaitShotFail).trace := by
  constructor <;> simp [run, envWaitShotFail, interactionFailure]

/-- C3 (amended): when navigation raises and the diagnostic screenshot
attempt succeeds, `run()` prints the error, writes
`verification_failed.png`, releases the browser, and returns without
retrying and without entering the interaction phase — the trace is
exactly the five events below. (When the screenshot attempt itself
raises, the browser is not released and the exception propagates; see
the counterexample.) -/
theorem spec_C3 (env : Env) (hg : env.gotoOk = false) (hs : env.shotFailedOk = true) :
    run env = ⟨[Ev.print "Navigating to app...",
                Ev.print ("Navigation failed: " ++ env.navErr),
                Ev.shotAttempt "verification_failed.png",
                Ev.fileWrite "verification_failed.png" false,
                Ev.close], false⟩ := by
  obtain ⟨g, ne, w, f, ie, sf, sc, se⟩ := env
  simp only at hg hs
  subst hg
  subst hs
  simp [run]

/-- C3 witness at a concrete run. -/
theorem spec_C3_witness :
    run envNavFail = ⟨[Ev.print "Navigating to app...",
      Ev.print ("Navigation failed: " ++ "Timeout 60000ms exceeded."),
      Ev.shotAttempt "verification_failed.png",
      Ev.fileWrite "verification_failed.png" false,
      Ev.close], false⟩ :=
  spec_C3 envNavFail rfl rfl

/-- C3 counterexample: if the screenshot to `verification_failed.png`
itself raises, `run()` neither releases the browser nor returns — so the
claim's unconditional "releases the browser, and returns" fails. -/
theorem spec_C3_counterexample :
    Ev.close ∉ (run envNavShotFail).trace ∧ (run envNavShotFail).raised = true := by
  constructor <;> simp [run, envNavShotFail]

/-- C4 (amended): when navigation succeeds, no textarea appears within
the timeout, and the diagnostic screenshot succeeds, the run writes
`verification_error.png` and nothing else (in particular not
`verification_chat.png`), and the browser is still released. (If the
diagnostic screenshot itself raises, no file is written and the browser
is not released; see the counterexample.) -/
theorem spec_C4 (env : Env) (hg : env.gotoOk = true) (hw : env.waitOk = false)
    (hs : env.shotErrorOk = true) :
    writes (run env) = ["verification_error.png"] ∧ closeCount (run env) = 1 ∧
      (run env).raised = false := by
  obtain ⟨g, ne, w, f, ie, sf, sc, se⟩ := env
  simp only at hg hw hs
  subst hg
  subst hw
  subst hs
  simp [run, interactionFailure, writes, closeCount, isClose]

/-- C4 witness at a concrete run. -/
theorem spec_C4_witness :
    writes (run envWaitFail) = ["verification_error.png"] ∧
    closeCount (run envWaitFail) = 1 ∧ (run envWaitFail).raised = false :=
  spec_C4 envWaitFail rfl rfl rfl

/-- C4 counterexample: in the run where no textarea appears and the
diagnostic screenshot itself fails, `verification_error.png` is not
produced and the browser is not released. -/
theorem spec_C4_counterexample :
    writes (run envWaitShotFail) = [] ∧ closeCount (run envWaitShotFail) = 0 := by
  constructor <;> simp [run, envWaitShotFail, interactionFailure, writes, closeCount, isClose]

/-- C5 (amended): when navigation succeeds, a textarea appears within
the timeout, and the fill and screenshot calls themselves succeed,
`run()` fills the textarea with exactly "Testing performance
optimization" and then captures `verification_chat.png` — the trace is
exactly the seven events below. (If the fill or the screenshot itself
raises, the run degrades to the diagnostic branch instead; see the
counterexample.) -/
theorem spec_C5 (env : Env) (hg : env.gotoOk = true) (hw : env.waitOk = true)
    (hf : env.fillOk = true) (hs : env.shotChatOk = true) :
    run env = ⟨[Ev.print "Navigating to app...",
                Ev.print "Waiting for chat input...",
                Ev.fillText "textarea" "Testing performance optimization",
                Ev.shotAttempt "verification_chat.png",
                Ev.fileWrite "verification_chat.png" false,
                Ev.print "Screenshot saved to verification_chat.png",
                Ev.close], false⟩ := by
  obtain ⟨g, ne, w, f, ie, sf, sc, se⟩ := env
  simp only at hg hw hf hs
  subst hg
  subst hw
  subst hf
  subst hs
  simp [run]

/-- C5 witness at a concrete run. -/
theorem spec_C5_witness :
    run envAllOk = ⟨[Ev.print "Navigating to app...",
      Ev.print "Waiting for chat input...",
      Ev.fillText "textarea" "Testing performance optimization",
      Ev.shotAttempt "verification_chat.png",
      Ev.fileWrite "verification_chat.png" false,
      Ev.print "Screenshot saved to verification_chat.png",
      Ev.close], false⟩ :=
  spec_C5 envAllOk rfl rfl rfl rfl

/-- C5 counterexample: in a run where navigation succeeds and the
textarea appears but the fill call raises, nothing is filled and
`verification_chat.png` is not produced — so the claim as stated
(quantified over every run with navigation success and textarea
appearance) fails. -/
theorem spec_C5_counterexample :
    envFillFail.gotoOk = true ∧ envFillFail.waitOk = true ∧
    Ev.fillText "textarea" "Testing performance optimization" ∉ (run envFillFail).trace ∧
    "verification_chat.png" ∉ writes (run envFillFail) := by
  refine ⟨rfl, rfl, ?_, ?_⟩ <;> simp [run, envFillFail, interactionFailure, writes]

/-- C6 (amended): the success-path screenshot written to
`verification_chat.png` is a default viewport capture, not a full-page
capture: the source passes no `full_page` argument and Playwright's
default is `full_page=False`. -/
theorem spec_C6 (env : Env) (hg : env.gotoOk = true) (hw : env.waitOk = true)
    (hf : env.fillOk = true) (hs : env.shotChatOk = true) :
    Ev.fileWrite "verification_chat.png" false ∈ (run env).trace ∧
    Ev.fileWrite "verification_chat.png" true ∉ (run env).trace := by
  obtain ⟨g, ne, w, f, ie, sf, sc, se⟩ := env
  simp only at hg hw hf hs
  subst hg
  subst hw
  subst hf
  subst hs
  constructor <;> simp [run]

/-- C6 witness at a concrete run. -/
theorem spec_C6_witness :
    envAllOk.gotoOk = true ∧
    (Ev.fileWrite "verification_chat.png" false ∈ (run envAllOk).trace ∧
      Ev.fileWrite "verification_chat.png" true ∉ (run envAllOk).trace) :=
  ⟨rfl, spec_C6 envAllOk rfl rfl rfl rfl⟩

/-- C6 counterexample: in the all-successful run, the
`verification_chat.png` screenshot event carries `full_page = false`,
and no full-page capture of that path occurs — refuting the claim that
the success-path screenshot is a full-page capture. -/
theorem spec_C6_counterexample :
    Ev.fileWrite "verification_chat.png" true ∉ (run envAllOk).trace ∧
    Ev.fileWrite "verification_chat.png" false ∈ (run envAllOk).trace := by
  constructor <;> simp [run, envAllOk]

/-- C7: every registered handler ignores the request entirely (so its
response is unconditional in method, headers, query parameters and
body), answers with status 200, and in particular every request whose
URL matches `**/api/conversations/*/messages` receives exactly the
two-message body with ids m1/m2, roles user/assistant, texts
"Hello"/"Hi there!" and timestamps 1/2. -/
theorem spec_C7 :
    (∀ pr ∈ routeHandlers, ∀ req req' : Request, pr.2 req = pr.2 req') ∧
    (∀ pr ∈ routeHandlers, ∀ req : Request, (pr.2 req).status = 200) ∧
    (∀ req : Request, globMatchS "**/api/conversations/*/messages" req.url = true →
      dispatch routeHandlers req = some (fulfillJson (.obj [("messages", .arr
        [.obj [("id", .str "m1"), ("role", .str "user"), ("text", .str "Hello"), ("timestamp", .num 1)],
         .obj [("id", .str "m2"), ("role", .str "assistant"), ("text", .str "Hi there!"),
           ("timestamp", .num 2)]])]))) := by
  refine ⟨?_, ?_, ?_⟩
  · intro pr hpr req req'
    fin_cases hpr <;> rfl
  · intro pr hpr req
    fin_cases hpr <;> rfl
  · exact dispatch_msgs

/-- C7 witness: a concrete GET request to the messages endpoint receives
the two-message body with status 200. -/
theorem spec_C7_witness :
    dispatch routeHandlers reqMsgs = some (fulfillJson (.obj [("messages", .arr
      [.obj [("id", .str "m1"), ("role", .str "user"), ("text", .str "Hello"), ("timestamp", .num 1)],
       .obj [("id", .str "m2"), ("role", .str "assistant"), ("text", .str "Hi there!"),
         ("timestamp", .num 2)]])])) :=
  spec_C7.2.2 reqMsgs (by simp [reqMsgs, globMatchS, globMatch, toks, tokMatch])

/-- C9: the thirteen registered patterns are pairwise non-overlapping —
for every URL string at most one of them matches — and consequently
dispatching against any permutation of the route table produces the same
response. -/
theorem spec_C9 :
    routePatterns.Pairwise (fun p₁ p₂ => ∀ u : String,
      ¬(globMatchS p₁ u = true ∧ globMatchS p₂ u = true)) ∧
    (∀ u : String, (routePatterns.filter (fun p => globMatchS p u)).length ≤ 1) ∧
    (∀ l' : List (String × (Request → Fulfill)), routeHandlers.Perm l' →
      ∀ req : Request, dispatch l' req = dispatch routeHandlers req) := by
  refine ⟨?_, ?_, ?_⟩
  · rw [List.pairwise_iff_get]
    intro i j hij u
    rintro ⟨h1, h2⟩
    exact forms_disjoint u.data i j (Fin.ne_of_lt hij)
      ((match_iff_form i u).mp h1) ((match_iff_form j u).mp h2)
  · intro u
    exact filter_length_le_one _ _ (routePatterns_pairwise_disjoint u)
  · exact dispatch_perm_invariant

/-- C9 witness: dispatching against the reversed route table gives the
same answer as the original table on a concrete request. -/
theorem spec_C9_witness :
    dispatch routeHandlers.reverse reqMsgs = dispatch routeHandlers reqMsgs :=
  spec_C9.2.2 routeHandlers.reverse (List.reverse_perm routeHandlers).symm reqMsgs

/-- C10 (amended): the single-segment wildcard of `**/api/wallet/*` does
not match across path separators — the wallet pattern matches exactly
the URLs consisting of anything, then `/api/wallet/`, then a slash-free
segment, so a deeper path below `/api/wallet/` never matches the wallet
pattern, and the example `/api/wallet/a/b` matches no registered pattern
at all. A deeper path may however still match a different registered
pattern whose suffix it happens to end with (see the counterexample). -/
theorem spec_C10 :
    (∀ u : String, globMatchS "**/api/wallet/*" u = true ↔
      ∃ base w, noSlash w = true ∧ u.data = base ++ walletPre ++ w) ∧
    (∀ p ∈ routePatterns, globMatchS p "http://localhost:5173/api/wallet/a/b" = false) := by
  constructor
  · intro u
    rw [match10_iff]
    constructor
    · rintro ⟨w, hw, t, ht⟩
      refine ⟨t, w, hw, ?_⟩
      rw [← ht]
      simp [List.append_assoc]
    · rintro ⟨base, w, hw, hu⟩
      exact ⟨w, hw, ⟨base, by rw [hu]; simp [List.append_assoc]⟩⟩
  · intro p hp
    fin_cases hp <;> simp [globMatchS, globMatch, toks, tokMatch]

/-- C10 witness: a concrete registered pattern rejects the deeper path
`/api/wallet/a/b`. -/
theorem spec_C10_witness :
    globMatchS "**/api/status" "http://localhost:5173/api/wallet/a/b" = false :=
  spec_C10.2 "**/api/status" (by simp [routePatterns, routeHandlers])

/-- C10 counterexample: the deeper path `/api/wallet/api/logs` — two
segments below `/api/wallet/` — is rejected by the wallet pattern but
matches the registered pattern `**/api/logs`, so it is mocked after all,
refuting "a request to any deeper path matches no registered pattern". -/
theorem spec_C10_counterexample :
    ("**/api/logs" ∈ routePatterns ∧
      globMatchS "**/api/logs" "http://localhost:5173/api/wallet/api/logs" = true) ∧
    globMatchS "**/api/wallet/*" "http://localhost:5173/api/wallet/api/logs" = false := by
  refine ⟨⟨?_, ?_⟩, ?_⟩
  · simp [routePatterns, routeHandlers]
  · simp [globMatchS, globMatch, toks, tokMatch]
  · simp [globMatchS, globMatch, toks, tokMatch]

/-- C8: every run writes at most one file; every file written is one of
the three screenshot paths; `verification_chat.png` is written only on
the success path, `verification_failed.png` only on the
navigation-failure path, and `verification_error.png` only on the
interaction-failure path. Besides these writes the trace holds only
prints, screenshot attempts, fills and the browser close. -/
theorem spec_C8 (env : Env) :
    (writes (run env)).length ≤ 1 ∧
    (∀ p ∈ writes (run env),
      p = "verification_chat.png" ∨ p = "verification_failed.png" ∨
        p = "verification_error.png") ∧
    ("verification_chat.png" ∈ writes (run env) →
      env.gotoOk = true ∧ env.waitOk = true ∧ env.fillOk = true ∧ env.shotChatOk = true) ∧
    ("verification_failed.png" ∈ writes (run env) → env.gotoOk = false) ∧
    ("verification_error.png" ∈ writes (run env) →
      env.gotoOk = true ∧ (env.waitOk = false ∨ env.fillOk = false ∨ env.shotChatOk = false)) := by
  obtain ⟨g, ne, w, f, ie, sf, sc, se⟩ := env
  cases g <;> cases w <;> cases f <;> cases sf <;> cases sc <;> cases se <;>
    simp [run, interactionFailure, writes]

/-- C8 witness at a concrete run. -/
theorem spec_C8_witness :
    "verification_chat.png" ∈ writes (run envAllOk) ∧
    (envAllOk.gotoOk = true ∧ envAllOk.waitOk = true ∧ envAllOk.fillOk = true ∧
      envAllOk.shotChatOk = true) :=
  ⟨by simp [run, envAllOk, writes],
   (spec_C8 envAllOk).2.2.1 (by simp [run, envAllOk, writes])⟩

end VerifyChat
